import Mathlib

/-!
Verification of the US NCAP crash-test relative-risk simulator
(`sbibm/tasks/us_ncap/task_utils.py` and `sbibm/tasks/us_ncap/task.py`).

The torch code is a batch pipeline: every tensor operation is elementwise
per input row, so each (N, k) tensor operation is embedded as a scalar
function on one row (a `List ℝ`), mapped over the batch.  Machine floats
are modelled by real numbers.  The standard normal CDF used by
`torch.distributions.Normal(0.0, 1.0).cdf` is embedded through Mathlib's
Gaussian measure.  The elementwise Gaussian noise draw
(`torch.randn_like`) is modelled by an explicit noise function `ℕ → ℝ`
giving the draw for each output row; the noise level scales it exactly as
in the code.
-/

noncomputable section

/-- Standard normal cumulative distribution function, as used by
`torch.distributions.Normal(0.0, 1.0).cdf`. -/
def stdNormalCdf (x : ℝ) : ℝ :=
  (ProbabilityTheory.gaussianReal 0 1 (Set.Iic x)).toReal

/-- FullFrontalCrash.p_hic: probability of head injury from the HIC value. -/
def p_hic (hic : ℝ) : ℝ :=
  stdNormalCdf ((Real.log hic - 7.45231) / 0.73998)

/-- FullFrontalCrash.p_chest_driver: chest injury probability (driver). -/
def p_chest_driver (chest : ℝ) : ℝ :=
  1 / (1 + Real.exp (10.5456 - 1.568 * chest ^ (0.4612 : ℝ)))

/-- FullFrontalCrash.p_femur_driver: femur injury probability (driver). -/
def p_femur_driver (femur : ℝ) : ℝ :=
  1 / (1 + Real.exp (5.795 - 0.5196 * femur))

/-- FullFrontalCrash.p_nij: neck injury probability from the NIJ value. -/
def p_nij (nij : ℝ) : ℝ :=
  1 / (1 + Real.exp (3.2269 - 1.9688 * nij))

/-- FullFrontalCrash.p_tension_and_compression_driver: neck injury
probability from neck tension or compression (driver). -/
def p_tension_and_compression_driver (n_input : ℝ) : ℝ :=
  1 / (1 + Real.exp (10.9745 - 2.375 * n_input))

/-- FullFrontalCrash.p_chest_passenger: chest injury probability
(passenger).  Defined in the source but never called by it. -/
def p_chest_passenger (chest : ℝ) : ℝ :=
  1 / (1 + Real.exp (10.5456 - 1.721 * chest ^ (0.4612 : ℝ)))

/-- FullFrontalCrash.p_femur_passenger: femur injury probability
(passenger).  Defined in the source but never called by it. -/
def p_femur_passenger (femur : ℝ) : ℝ :=
  1 / (1 + Real.exp (5.795 - 0.762 * femur))

/-- FullFrontalCrash.p_tension_and_compression_passenger: neck injury
probability from neck tension or compression (passenger).  Defined in the
source but never called by it. -/
def p_tension_and_compression_passenger (n_input : ℝ) : ℝ :=
  1 / (1 + Real.exp (10.958 - 3.770 * n_input))

/-- The combined occupant injury probability computed inside
`FullFrontalCrash._rel_risk_single` before the division by the base
risk. -/
def combined_prob (p0 p1 p2 p3 : ℝ) : ℝ :=
  1 - (1 - p0) * (1 - p1) * (1 - p2) * (1 - p3)

/-- FullFrontalCrash._rel_risk_single, row-wise: combine four body-region
probabilities and normalise by the base risk. -/
def rel_risk_single (base_risk p0 p1 p2 p3 : ℝ) : ℝ :=
  combined_prob p0 p1 p2 p3 / base_risk

/-- FullFrontalCrash.rel_risk_driver on one measurement row
(columns 0..5: HIC, chest, femur, NIJ, compression, tension). -/
def rel_risk_driver_row (base_risk : ℝ) (r : List ℝ) : ℝ :=
  let phic := p_hic (r.getD 0 0)
  let pchest := p_chest_driver (r.getD 1 0)
  let pfemur := p_femur_driver (r.getD 2 0)
  let pnij := p_nij (r.getD 3 0)
  let pcompression := p_tension_and_compression_driver (r.getD 4 0)
  let ptension := p_tension_and_compression_driver (r.getD 5 0)
  let pneck := max pnij (max pcompression ptension)
  rel_risk_single base_risk phic pchest pfemur pneck

/-- FullFrontalCrash.rel_risk_passenger on one measurement row.  Exactly
as in the source, the chest, femur and neck tension/compression
probabilities are computed with `p_chest_driver`, `p_femur_driver` and
`p_tension_and_compression_driver`, not with the passenger variants. -/
def rel_risk_passenger_row (base_risk : ℝ) (r : List ℝ) : ℝ :=
  let phic := p_hic (r.getD 0 0)
  let pchest := p_chest_driver (r.getD 1 0)
  let pfemur := p_femur_driver (r.getD 2 0)
  let pnij := p_nij (r.getD 3 0)
  let pcompression := p_tension_and_compression_driver (r.getD 4 0)
  let ptension := p_tension_and_compression_driver (r.getD 5 0)
  let pneck := max pnij (max pcompression ptension)
  rel_risk_single base_risk phic pchest pfemur pneck

/-- FullFrontalCrash.rel_risk_driver on an (N, 6) batch. -/
def rel_risk_driver (base_risk : ℝ) (m : List (List ℝ)) : List ℝ :=
  m.map (rel_risk_driver_row base_risk)

/-- FullFrontalCrash.rel_risk_passenger on an (N, 6) batch. -/
def rel_risk_passenger (base_risk : ℝ) (m : List (List ℝ)) : List ℝ :=
  m.map (rel_risk_passenger_row base_risk)

/-- FullFrontalCrash.__call__ on one 12-wide measurement row: driver risk
from columns 0..5, passenger risk from columns 6..11, averaged. -/
def full_frontal_row (base_risk : ℝ) (r : List ℝ) : ℝ :=
  (rel_risk_driver_row base_risk (r.take 6)
    + rel_risk_passenger_row base_risk (r.drop 6)) / 2

/-- The intended passenger relative risk, as the claim (and the spec's
constants table) states it: the same pipeline as
`rel_risk_passenger_row`, but applying the passenger-specific functions
`p_chest_passenger`, `p_femur_passenger` and
`p_tension_and_compression_passenger` that the source defines for the
passenger, to columns 1, 2 and 4/5. -/
def rel_risk_passenger_claimed_row (base_risk : ℝ) (r : List ℝ) : ℝ :=
  let phic := p_hic (r.getD 0 0)
  let pchest := p_chest_passenger (r.getD 1 0)
  let pfemur := p_femur_passenger (r.getD 2 0)
  let pnij := p_nij (r.getD 3 0)
  let pcompression := p_tension_and_compression_passenger (r.getD 4 0)
  let ptension := p_tension_and_compression_passenger (r.getD 5 0)
  let pneck := max pnij (max pcompression ptension)
  rel_risk_single base_risk phic pchest pfemur pneck

/-- SideImpact.p_chest_front: chest injury probability from the maximal
rib deflection (front occupant). -/
def p_chest_front (chest : ℝ) : ℝ :=
  1 / (1 + Real.exp (5.3895 - 0.092 * chest))

/-- SideImpact.p_abdomen_front: abdomen injury probability from the
abdominal force (front occupant). -/
def p_abdomen_front (abdomen : ℝ) : ℝ :=
  1 / (1 + Real.exp (6.04 - 0.0021 * abdomen))

/-- SideImpact.p_pelvis_front: pelvis injury probability from the pelvic
force (front occupant). -/
def p_pelvis_front (pelvis : ℝ) : ℝ :=
  1 / (1 + Real.exp (7.597 - 0.001 * pelvis))

/-- SideImpact.p_pelvis_rear: pelvis injury probability from the pelvic
force (rear occupant). -/
def p_pelvis_rear (pelvis : ℝ) : ℝ :=
  1 / (1 + Real.exp (6.3055 - 0.00094 * pelvis))

/-- SideImpact.rel_risk_front on one 4-wide measurement row
(HIC, rib, abdomen, pelvis). -/
def rel_risk_front_row (base_risk : ℝ) (r : List ℝ) : ℝ :=
  let phic := p_hic (r.getD 0 0)
  let pchest := p_chest_front (r.getD 1 0)
  let pabdomen := p_abdomen_front (r.getD 2 0)
  let ppelvis := p_pelvis_front (r.getD 3 0)
  (1 - (1 - phic) * (1 - pchest) * (1 - pabdomen) * (1 - ppelvis)) / base_risk

/-- SideImpact.rel_risk_rear on one 2-wide measurement row (HIC, pelvis). -/
def rel_risk_rear_row (base_risk : ℝ) (r : List ℝ) : ℝ :=
  let phic := p_hic (r.getD 0 0)
  let ppelvis := p_pelvis_rear (r.getD 1 0)
  (1 - (1 - phic) * (1 - ppelvis)) / base_risk

/-- SideImpact.rel_risk_front_pole: delegates to `rel_risk_rear`, as the
source does. -/
def rel_risk_front_pole_row (base_risk : ℝ) (r : List ℝ) : ℝ :=
  rel_risk_rear_row base_risk r

/-- SideImpact.__call__ on one 8-wide measurement row: columns 0..1 are
the side-pole front measurements, 2..5 the barrier (mdb) front
measurements, 6..7 the barrier rear measurements. -/
def side_impact_row (base_risk : ℝ) (r : List ℝ) : ℝ :=
  let risk_front_pole := rel_risk_front_pole_row base_risk (r.take 2)
  let risk_front_mdb := rel_risk_front_row base_risk ((r.drop 2).take 4)
  let risk_rear_mdb := rel_risk_rear_row base_risk (r.drop 6)
  let risk_front := 0.2 * risk_front_pole + 0.8 * risk_front_mdb
  (risk_front + risk_rear_mdb) / 2

/-- RollOver.__call__ on one 1-wide measurement row: rollover probability
divided by the base risk. -/
def roll_over_row (base_risk : ℝ) (r : List ℝ) : ℝ :=
  r.getD 0 0 / base_risk

/-- A 2-d tensor of shape (rows.length, width): every row has length
`width`, as a `torch.Tensor` batch does. -/
structure Batch where
  rows : List (List ℝ)
  width : ℕ
  hwidth : ∀ r ∈ rows, r.length = width

/-- One output row of `US_NCAP.get_simulator.simulator`: the weighted sum
of the three scenario risks (weights 5/12, 4/12, 3/12 over the column
slices 0..11, 12..19 and 20..) plus the noise draw scaled by the noise
level. -/
def simulator_row (base_risk noise_level noise : ℝ) (r : List ℝ) : ℝ :=
  (5 / 12) * full_frontal_row base_risk (r.take 12)
    + (4 / 12) * side_impact_row base_risk ((r.drop 12).take 8)
    + (3 / 12) * roll_over_row base_risk (r.drop 20)
    + noise_level * noise

/-- US_NCAP.get_simulator.simulator: checks that the second dimension of
the parameter batch equals the configured `dim_parameters` (the Python
`assert`; its failure is an exception, modelled by `none`), then returns
the (N, 1) batch of noisy relative risks, row `i` computed from input
row `i` and the noise draw for row `i`. -/
def simulator (base_risk noise_level : ℝ) (dim_parameters : ℕ)
    (parameters : Batch) (noise : ℕ → ℝ) : Option (List (List ℝ)) :=
  if parameters.width = dim_parameters then
    some ((List.range parameters.rows.length).map fun i =>
      [simulator_row base_risk noise_level (noise i) (parameters.rows.getD i [])])
  else
    none

/-- US_NCAP.get_labels_data. -/
def get_labels_data : List String := ["Relative Risk"]

/-- US_NCAP.get_labels_parameters: the fixed list of human-readable
parameter names. -/
def get_labels_parameters : List String :=
  [ "Full Frontal Driver HIC"
  , "Full Frontal Driver Chest Deflection"
  , "Full Frontal Driver Femur Load"
  , "Full Frontal Driver NIJ"
  , "Full Frontal Driver Neck Compression"
  , "Full Frontal Driver Neck Tension"
  , "Full Frontal Passanger HIC"
  , "Full Frontal Passanger Chest Deflection"
  , "Full Frontal Passanger Femur Load"
  , "Full Frontal Passanger NIJ"
  , "Full Frontal Passanger Neck Compression"
  , "Full Frontal Passanger Neck Tension"
  , "Side Pole Front HIC"
  , "Side Pole Front Chest (Rib)"
  , "Side Pole Front Abdomen"
  , "Side Pole Front Pelvis"
  , "Side Impact Front HIC"
  , "Side Impact Front Chest (Rib)"
  , "Side Impact Front Abdomen"
  , "Side Impact Front Pelvis"
  , "Side Impact Rear HIC"
  , "Side Impact Rear Pelvis"
  , "Roll Over Probability" ]

/-- Default `dim_parameters` of `US_NCAP.__init__`. -/
def default_dim_parameters : ℕ := 21

/-- LOWER_BOUND_FULL_FRONTAL. -/
def lower_bound_full_frontal : List ℝ :=
  [200, 5, 2, 0.0, 1.5, 1.5, 200, 5, 2, 0.0, 1.5, 1.5]

/-- UPPER_BOUND_FULL_FRONTAL. -/
def upper_bound_full_frontal : List ℝ :=
  [1000, 45, 8.0, 1.2, 4.0, 4.0, 1000, 45, 6.0, 1.2, 2.5, 2.5]

/-- LOWER_BOUND_SIDE_IMPACT. -/
def lower_bound_side_impact : List ℝ :=
  [200, 1000, 200, 5, 1000, 1000, 200, 1000]

/-- UPPER_BOUND_SIDE_IMPACT. -/
def upper_bound_side_impact : List ℝ :=
  [1000, 5500, 1000, 45, 5500, 5500, 1000, 5500]

/-- LOWER_BOUND_ROLL_OVER. -/
def lower_bound_roll_over : List ℝ := [0.01]

/-- UPPER_BOUND_ROLL_OVER. -/
def upper_bound_roll_over : List ℝ := [0.25]

/-- Default `prior_lower_bound` of `US_NCAP.__init__`. -/
def default_prior_lower_bound : List ℝ :=
  lower_bound_full_frontal ++ lower_bound_side_impact ++ lower_bound_roll_over

/-- Default `prior_upper_bound` of `US_NCAP.__init__`. -/
def default_prior_upper_bound : List ℝ :=
  upper_bound_full_frontal ++ upper_bound_side_impact ++ upper_bound_roll_over

/-- A concrete well-formed (1, 21) parameter batch. -/
def sample_batch : Batch :=
  ⟨[List.replicate 21 1], 21, by
    intro r hr
    rw [List.mem_singleton] at hr
    subst hr
    simp⟩

/-- A concrete (1, 2) batch, whose second dimension violates the default
configuration. -/
def bad_batch : Batch :=
  ⟨[[1, 1]], 2, by
    intro r hr
    rw [List.mem_singleton] at hr
    subst hr
    rfl⟩

/-! ### Helper lemmas -/

lemma one_add_exp_pos (a : ℝ) : 0 < 1 + Real.exp a := by positivity

lemma logistic_pos (a : ℝ) : 0 < 1 / (1 + Real.exp a) := by positivity

lemma logistic_lt_one (a : ℝ) : 1 / (1 + Real.exp a) < 1 := by
  rw [div_lt_one (one_add_exp_pos a)]
  linarith [Real.exp_pos a]

lemma logistic_le_logistic {a b : ℝ} (h : a ≤ b) :
    1 / (1 + Real.exp b) ≤ 1 / (1 + Real.exp a) := by
  apply one_div_le_one_div_of_le (one_add_exp_pos a)
  have := Real.exp_le_exp.2 h
  linarith

lemma logistic_lt_logistic {a b : ℝ} (h : a < b) :
    1 / (1 + Real.exp b) < 1 / (1 + Real.exp a) := by
  apply one_div_lt_one_div_of_lt (one_add_exp_pos a)
  have := Real.exp_lt_exp.2 h
  linarith

lemma stdNormalCdf_lt_one (x : ℝ) : stdNormalCdf x < 1 := by
  have hioi : ProbabilityTheory.gaussianReal 0 1 (Set.Ioi x) ≠ 0 := by
    intro h0
    have hvol := ProbabilityTheory.gaussianReal_absolutelyContinuous' 0 one_ne_zero h0
    rw [Real.volume_Ioi] at hvol
    exact ENNReal.top_ne_zero hvol
  have hcompl : ProbabilityTheory.gaussianReal 0 1 (Set.Iic x)ᶜ
      = 1 - ProbabilityTheory.gaussianReal 0 1 (Set.Iic x) :=
    MeasureTheory.prob_compl_eq_one_sub measurableSet_Iic
  rw [Set.compl_Iic] at hcompl
  have hne : ProbabilityTheory.gaussianReal 0 1 (Set.Iic x) ≠ 1 := by
    intro h1
    rw [hcompl, h1, tsub_self] at hioi
    exact hioi rfl
  have hlt : ProbabilityTheory.gaussianReal 0 1 (Set.Iic x) < 1 :=
    lt_of_le_of_ne MeasureTheory.prob_le_one hne
  have := (ENNReal.toReal_lt_toReal (MeasureTheory.measure_ne_top _ _)
    ENNReal.one_ne_top).2 hlt
  rw [ENNReal.one_toReal] at this
  exact this

lemma mul_eq_one_unit {x y : ℝ} (hx0 : 0 ≤ x) (hx1 : x ≤ 1) (hy0 : 0 ≤ y)
    (hy1 : y ≤ 1) (h : x * y = 1) : x = 1 ∧ y = 1 := by
  constructor
  · nlinarith
  · nlinarith

lemma div_two_mul (x r : ℝ) : x / (2 * r) = x / r / 2 := by
  rw [div_div, mul_comm]

lemma rel_risk_single_double (r p0 p1 p2 p3 : ℝ) :
    rel_risk_single (2 * r) p0 p1 p2 p3 = rel_risk_single r p0 p1 p2 p3 / 2 :=
  div_two_mul _ _

lemma rel_risk_driver_row_double (r : ℝ) (m : List ℝ) :
    rel_risk_driver_row (2 * r) m = rel_risk_driver_row r m / 2 :=
  rel_risk_single_double _ _ _ _ _

lemma rel_risk_passenger_row_double (r : ℝ) (m : List ℝ) :
    rel_risk_passenger_row (2 * r) m = rel_risk_passenger_row r m / 2 :=
  rel_risk_single_double _ _ _ _ _

lemma full_frontal_row_double (r : ℝ) (m : List ℝ) :
    full_frontal_row (2 * r) m = full_frontal_row r m / 2 := by
  unfold full_frontal_row
  rw [rel_risk_driver_row_double, rel_risk_passenger_row_double]
  ring

lemma rel_risk_front_row_double (r : ℝ) (m : List ℝ) :
    rel_risk_front_row (2 * r) m = rel_risk_front_row r m / 2 :=
  div_two_mul _ _

lemma rel_risk_rear_row_double (r : ℝ) (m : List ℝ) :
    rel_risk_rear_row (2 * r) m = rel_risk_rear_row r m / 2 :=
  div_two_mul _ _

lemma side_impact_row_double (r : ℝ) (m : List ℝ) :
    side_impact_row (2 * r) m = side_impact_row r m / 2 := by
  unfold side_impact_row rel_risk_front_pole_row
  rw [rel_risk_front_row_double, rel_risk_rear_row_double, rel_risk_rear_row_double]
  ring

lemma roll_over_row_double (r : ℝ) (m : List ℝ) :
    roll_over_row (2 * r) m = roll_over_row r m / 2 :=
  div_two_mul _ _

lemma simulator_row_double (r n : ℝ) (m : List ℝ) :
    simulator_row (2 * r) 0 n m = simulator_row r 0 n m / 2 := by
  unfold simulator_row
  rw [full_frontal_row_double, side_impact_row_double, roll_over_row_double]
  ring

lemma simulator_eq_of_width (base_risk noise_level : ℝ) {dim_parameters : ℕ}
    {t : Batch} (noise : ℕ → ℝ) (h : t.width = dim_parameters) :
    simulator base_risk noise_level dim_parameters t noise
      = some ((List.range t.rows.length).map fun i =>
          [simulator_row base_risk noise_level (noise i) (t.rows.getD i [])]) := by
  unfold simulator
  rw [if_pos h]

lemma rel_risk_single_lt {base_risk A B C N Bp Cp : ℝ} (hbr : 0 < base_risk)
    (hA : A < 1) (hN : N < 1) (hB1 : Bp < 1) (hC1 : Cp < 1)
    (hB : B < Bp) (hC : C < Cp) :
    rel_risk_single base_risk A B C N < rel_risk_single base_risk A Bp Cp N := by
  unfold rel_risk_single combined_prob
  have a0 : 0 < 1 - A := by linarith
  have n0 : 0 < 1 - N := by linarith
  have b0 : 0 < 1 - Bp := by linarith
  have c0 : 0 < 1 - Cp := by linarith
  have h2 : (1 - Bp) * (1 - Cp) < (1 - B) * (1 - C) := by nlinarith
  have key : (1 - A) * (1 - Bp) * (1 - Cp) * (1 - N)
      < (1 - A) * (1 - B) * (1 - C) * (1 - N) := by
    nlinarith [mul_lt_mul_of_pos_right (mul_lt_mul_of_pos_left h2 a0) n0]
  have hnum : 1 - (1 - A) * (1 - B) * (1 - C) * (1 - N)
      < 1 - (1 - A) * (1 - Bp) * (1 - Cp) * (1 - N) := by linarith
  exact div_lt_div_of_pos_right hnum hbr

/-! ### Claim theorems -/

/-- Claim C10: for every (N, 6) measurement batch, `rel_risk_passenger`
returns exactly the same value as `rel_risk_driver` applied to the same
batch: the two occupant computations are extensionally equal functions. -/
theorem rel_risk_passenger_eq_rel_risk_driver (base_risk : ℝ) (m : List (List ℝ)) :
    rel_risk_passenger base_risk m = rel_risk_driver base_risk m := rfl

/-- Claim C3: the side-impact scenario risk equals
((0.2 · pole_front + 0.8 · barrier_front) + rear) / 2, where the
side-pole-front risk is computed with the 2-input (head + pelvis)
occupant formula by reusing the rear-occupant computation
(`rel_risk_rear_row`), and the barrier-front risk uses the 4-input
occupant formula (`rel_risk_front_row`). -/
theorem side_impact_call_combination (base_risk : ℝ) (m : List ℝ) :
    side_impact_row base_risk m
      = ((0.2 * rel_risk_rear_row base_risk (m.take 2)
          + 0.8 * rel_risk_front_row base_risk ((m.drop 2).take 4))
         + rel_risk_rear_row base_risk (m.drop 6)) / 2
    ∧ rel_risk_front_pole_row base_risk (m.take 2)
      = rel_risk_rear_row base_risk (m.take 2) :=
  ⟨rfl, rfl⟩

/-- Claim C4 (code bug): `get_labels_parameters` returns 23 labels, but
the configured parameter dimensionality (the default `dim_parameters`,
which is also the length of the default prior bounds and the second
dimension the simulator accepts) is 21, so the label list does not have
exactly one entry per parameter dimension. -/
theorem labels_parameters_length_mismatch :
    get_labels_parameters.length = 23
    ∧ default_dim_parameters = 21
    ∧ default_prior_lower_bound.length = 21
    ∧ default_prior_upper_bound.length = 21
    ∧ get_labels_parameters.length ≠ default_dim_parameters :=
  ⟨rfl, rfl, rfl, rfl, by decide⟩

/-- Claim C8: with the noise level configured to 0, the simulator is
deterministic: calls with identical parameter batches but arbitrary
noise draws produce identical outputs. -/
theorem simulator_deterministic_at_zero_noise (base_risk : ℝ) (dim_parameters : ℕ)
    (t : Batch) (noise1 noise2 : ℕ → ℝ) :
    simulator base_risk 0 dim_parameters t noise1
      = simulator base_risk 0 dim_parameters t noise2 := by
  unfold simulator
  split
  · simp [simulator_row]
  · rfl

/-- Claim C9: a parameter batch whose second dimension differs from the
configured parameter dimensionality fails the simulator's shape check
and produces no result at all, while a batch with the correct second
dimension passes the check and produces a result. -/
theorem simulator_shape_check (base_risk noise_level : ℝ) (dim_parameters : ℕ)
    (t : Batch) (noise : ℕ → ℝ) :
    (t.width ≠ dim_parameters
      → simulator base_risk noise_level dim_parameters t noise = none)
    ∧ (t.width = dim_parameters
      → (simulator base_risk noise_level dim_parameters t noise).isSome = true) := by
  constructor <;> intro h <;> simp [simulator, h]

/-- Witness for claim C9 at concrete inputs: a (1, 2) batch is rejected
by the default 21-dimensional configuration and a (1, 21) batch is
accepted. -/
theorem simulator_shape_check_witness :
    simulator 0.15 0.1 21 bad_batch (fun _ => 0) = none
    ∧ (simulator 0.15 0.1 21 sample_batch (fun _ => 0)).isSome = true :=
  ⟨(simulator_shape_check 0.15 0.1 21 bad_batch (fun _ => 0)).1 (by decide),
   (simulator_shape_check 0.15 0.1 21 sample_batch (fun _ => 0)).2 rfl⟩

/-- Claim C5: for every input batch whose second dimension passes the
dimensionality check, the simulator returns exactly one output row per
input row, each of width 1 — an (N, 1) batch of relative-risk values. -/
theorem simulator_output_shape (base_risk noise_level : ℝ) (dim_parameters : ℕ)
    (t : Batch) (noise : ℕ → ℝ) (h : t.width = dim_parameters) :
    ∃ out, simulator base_risk noise_level dim_parameters t noise = some out
      ∧ out.length = t.rows.length
      ∧ ∀ row ∈ out, row.length = 1 := by
  refine ⟨_, simulator_eq_of_width base_risk noise_level noise h, ?_, ?_⟩
  · simp
  · intro row hrow
    rw [List.mem_map] at hrow
    obtain ⟨i, _, hi⟩ := hrow
    rw [← hi]
    rfl

/-- Witness for claim C5 at a concrete (1, 21) batch. -/
theorem simulator_output_shape_witness :
    ∃ out, simulator 0.15 0.1 21 sample_batch (fun _ => 0) = some out
      ∧ out.length = sample_batch.rows.length
      ∧ ∀ row ∈ out, row.length = 1 :=
  simulator_output_shape 0.15 0.1 21 sample_batch (fun _ => 0) rfl

/-- Claim C2: for every valid parameter batch, each simulator output
value equals 5/12 times the full-frontal risk of columns 0..11 plus 4/12
times the side-impact risk of columns 12..19 plus 3/12 times the
rollover risk of column 20, plus the noise draw for that row scaled by
the noise level (the only place the noise enters); the three scenario
weights sum to 1. -/
theorem simulator_weighted_sum_plus_noise (base_risk noise_level : ℝ)
    (dim_parameters : ℕ) (t : Batch) (noise : ℕ → ℝ)
    (h : t.width = dim_parameters) :
    simulator base_risk noise_level dim_parameters t noise
      = some ((List.range t.rows.length).map fun i =>
          [(5 / 12) * full_frontal_row base_risk ((t.rows.getD i []).take 12)
            + (4 / 12) * side_impact_row base_risk
                (((t.rows.getD i []).drop 12).take 8)
            + (3 / 12) * roll_over_row base_risk ((t.rows.getD i []).drop 20)
            + noise_level * noise i])
    ∧ ((5 : ℝ) / 12 + 4 / 12 + 3 / 12 = 1) :=
  ⟨simulator_eq_of_width base_risk noise_level noise h, by norm_num⟩

/-- Witness for claim C2 at a concrete (1, 21) batch. -/
theorem simulator_weighted_sum_plus_noise_witness :
    simulator 0.15 0.1 21 sample_batch (fun _ => 0)
      = some ((List.range sample_batch.rows.length).map fun i =>
          [(5 / 12) * full_frontal_row 0.15 ((sample_batch.rows.getD i []).take 12)
            + (4 / 12) * side_impact_row 0.15
                (((sample_batch.rows.getD i []).drop 12).take 8)
            + (3 / 12) * roll_over_row 0.15 ((sample_batch.rows.getD i []).drop 20)
            + 0.1 * (fun _ => (0 : ℝ)) i])
    ∧ ((5 : ℝ) / 12 + 4 / 12 + 3 / 12 = 1) :=
  simulator_weighted_sum_plus_noise 0.15 0.1 21 sample_batch (fun _ => 0) rfl

/-- Claim C7: with zero noise contribution, the end-to-end relative-risk
output scales inversely with the base risk: the pipeline run with base
risk 2·r yields exactly half the output obtained with base risk r. -/
theorem simulator_halves_when_base_risk_doubles (r : ℝ) (dim_parameters : ℕ)
    (t : Batch) (noise : ℕ → ℝ) :
    simulator (2 * r) 0 dim_parameters t noise
      = Option.map (List.map (List.map fun v => v / 2))
          (simulator r 0 dim_parameters t noise) := by
  unfold simulator
  split
  · simp [List.map_map, Function.comp, simulator_row_double]
  · rfl

/-- Claim C6: whenever each of the four per-region probabilities lies in
[0, 1], the combined occupant injury probability 1 − Π(1 − p_i) (the
value computed in `_rel_risk_single` before the division by the base
risk) lies in [0, 1], and it equals 0 if and only if every p_i equals
0. -/
theorem combined_prob_unit_interval_iff_zero (p0 p1 p2 p3 : ℝ)
    (h0 : 0 ≤ p0) (h0u : p0 ≤ 1) (h1 : 0 ≤ p1) (h1u : p1 ≤ 1)
    (h2 : 0 ≤ p2) (h2u : p2 ≤ 1) (h3 : 0 ≤ p3) (h3u : p3 ≤ 1) :
    (0 ≤ combined_prob p0 p1 p2 p3 ∧ combined_prob p0 p1 p2 p3 ≤ 1)
    ∧ (combined_prob p0 p1 p2 p3 = 0
        ↔ p0 = 0 ∧ p1 = 0 ∧ p2 = 0 ∧ p3 = 0) := by
  have q0 : 0 ≤ 1 - p0 := by linarith
  have q0u : 1 - p0 ≤ 1 := by linarith
  have q1 : 0 ≤ 1 - p1 := by linarith
  have q1u : 1 - p1 ≤ 1 := by linarith
  have q2 : 0 ≤ 1 - p2 := by linarith
  have q2u : 1 - p2 ≤ 1 := by linarith
  have q3 : 0 ≤ 1 - p3 := by linarith
  have q3u : 1 - p3 ≤ 1 := by linarith
  have b01 : 0 ≤ (1 - p0) * (1 - p1) := mul_nonneg q0 q1
  have u01 : (1 - p0) * (1 - p1) ≤ 1 := by nlinarith
  have b012 : 0 ≤ (1 - p0) * (1 - p1) * (1 - p2) := mul_nonneg b01 q2
  have u012 : (1 - p0) * (1 - p1) * (1 - p2) ≤ 1 := by nlinarith
  have bprod : 0 ≤ (1 - p0) * (1 - p1) * (1 - p2) * (1 - p3) := mul_nonneg b012 q3
  have uprod : (1 - p0) * (1 - p1) * (1 - p2) * (1 - p3) ≤ 1 := by nlinarith
  unfold combined_prob
  refine ⟨⟨by linarith, by linarith⟩, ?_, ?_⟩
  · intro h
    have hprod : (1 - p0) * (1 - p1) * (1 - p2) * (1 - p3) = 1 := by linarith
    obtain ⟨h012, h3eq⟩ := mul_eq_one_unit b012 u012 q3 q3u hprod
    obtain ⟨h01, h2eq⟩ := mul_eq_one_unit b01 u01 q2 q2u h012
    obtain ⟨h0eq, h1eq⟩ := mul_eq_one_unit q0 q0u q1 q1u h01
    exact ⟨by linarith, by linarith, by linarith, by linarith⟩
  · rintro ⟨rfl, rfl, rfl, rfl⟩
    ring

/-- Witness for claim C6 at the concrete probabilities
(1/2, 1/2, 0, 1). -/
theorem combined_prob_unit_interval_iff_zero_witness :
    ((0 : ℝ) ≤ combined_prob (1 / 2) (1 / 2) 0 1
      ∧ combined_prob (1 / 2) (1 / 2) 0 1 ≤ 1)
    ∧ (combined_prob (1 / 2) (1 / 2) 0 1 = 0
        ↔ (1 / 2 : ℝ) = 0 ∧ (1 / 2 : ℝ) = 0 ∧ (0 : ℝ) = 0 ∧ (1 : ℝ) = 0) :=
  combined_prob_unit_interval_iff_zero (1 / 2) (1 / 2) 0 1
    (by norm_num) (by norm_num) (by norm_num) (by norm_num)
    (by norm_num) (by norm_num) (by norm_num) (by norm_num)

/-- Claim C1 (code bug): `rel_risk_passenger` does not use the
passenger-specific logistic constants: on the concrete passenger
measurement row [1, 1, 1, 100, 0, 0] with the default base risk 0.15,
the value the code computes differs from the value obtained by applying
the passenger-specific functions `p_chest_passenger`,
`p_femur_passenger` and `p_tension_and_compression_passenger` that the
claim states it applies. -/
theorem rel_risk_passenger_uses_driver_constants :
    rel_risk_passenger_row 0.15 [1, 1, 1, 100, 0, 0]
      ≠ rel_risk_passenger_claimed_row 0.15 [1, 1, 1, 100, 0, 0] := by
  have hmax_d : max (p_nij 100)
      (max (p_tension_and_compression_driver 0) (p_tension_and_compression_driver 0))
      = p_nij 100 := by
    rw [max_self]
    apply max_eq_left
    unfold p_nij p_tension_and_compression_driver
    exact logistic_le_logistic (by norm_num)
  have hmax_p : max (p_nij 100)
      (max (p_tension_and_compression_passenger 0) (p_tension_and_compression_passenger 0))
      = p_nij 100 := by
    rw [max_self]
    apply max_eq_left
    unfold p_nij p_tension_and_compression_passenger
    exact logistic_le_logistic (by norm_num)
  have code_eq : rel_risk_passenger_row 0.15 [1, 1, 1, 100, 0, 0]
      = rel_risk_single 0.15 (p_hic 1) (p_chest_driver 1) (p_femur_driver 1)
          (p_nij 100) := by
    show rel_risk_single 0.15 (p_hic 1) (p_chest_driver 1) (p_femur_driver 1)
      (max (p_nij 100) (max (p_tension_and_compression_driver 0)
        (p_tension_and_compression_driver 0))) = _
    rw [hmax_d]
  have claimed_eq : rel_risk_passenger_claimed_row 0.15 [1, 1, 1, 100, 0, 0]
      = rel_risk_single 0.15 (p_hic 1) (p_chest_passenger 1) (p_femur_passenger 1)
          (p_nij 100) := by
    show rel_risk_single 0.15 (p_hic 1) (p_chest_passenger 1) (p_femur_passenger 1)
      (max (p_nij 100) (max (p_tension_and_compression_passenger 0)
        (p_tension_and_compression_passenger 0))) = _
    rw [hmax_p]
  rw [code_eq, claimed_eq]
  apply ne_of_lt
  apply rel_risk_single_lt
  · norm_num
  · exact stdNormalCdf_lt_one _
  · unfold p_nij
    exact logistic_lt_one _
  · unfold p_chest_passenger
    exact logistic_lt_one _
  · unfold p_femur_passenger
    exact logistic_lt_one _
  · unfold p_chest_driver p_chest_passenger
    apply logistic_lt_logistic
    rw [Real.one_rpow]
    norm_num
  · unfold p_femur_driver p_femur_passenger
    apply logistic_lt_logistic
    norm_num

end
